import Mathlib

set_option autoImplicit false

/-!
Verification development for the golara RabbitMQ messaging subsystem
(package `framework/rabbitmq`).  The Go source is shallowly embedded:
pure computation is translated to Lean functions, captured mutable state
(the deduplication store, the connection state) is threaded explicitly,
and broker-facing side effects (Ack/Nack calls) are recorded as an event
list in each handler result.  Go `error` values keep their identity
semantics: a package-level `errors.New` sentinel is a different value
from any later `fmt.Errorf`, even with the same message text.
-/

namespace Golara

/-- Go error values. The `sentinel` constructor models the package-level
variables created by `errors.New` in errors.go (identified by their
message, which is unique among them); `errorf` models a fresh error value
created by `fmt.Errorf` at a call site. In Go a `fmt.Errorf` result is
never `==` to a sentinel, which the two constructors capture. -/
inductive GoErr where
  | sentinel (msg : String)
  | errorf (msg : String)
deriving DecidableEq, Repr

/-- Broker-facing actions observable from a handler invocation or from the
consumer loop: acknowledgments, negative acknowledgments, publishes and an
instrumentation marker for leaf-handler invocation. -/
inductive Event where
  | ack (multiple : Bool)
  | nack (multiple : Bool) (requeue : Bool)
  | publish (exchange : String) (routingKey : String)
  | invoke (tag : String)
deriving DecidableEq, Repr

/-- JSON values, modelling the Go values that `encoding/json` can
round-trip (numbers restricted to integers; floats are out of scope). -/
inductive Json where
  | null
  | bool (b : Bool)
  | num (n : Int)
  | str (s : String)
  | arr (elems : List Json)
  | obj (fields : List (String × Json))
deriving Repr

/-- AMQP header values (`amqp.Table` entries) as far as the code inspects
them: Go `int`, `string`, `bool` or anything else. -/
inductive HVal where
  | int (n : Int)
  | str (s : String)
  | bool (b : Bool)
  | other
deriving DecidableEq, Repr

/-- The inbound message body: either bytes that parse as the given JSON
value, or bytes that are not valid JSON. -/
inductive BodyIn where
  | json (j : Json)
  | invalid
deriving Repr

/-- Embedding of the `Delivery` wrapper (consumer.go): the inbound message
fields the code reads, plus `ackErr`, the error the broker returns for an
`Ack` call on this delivery (`none` = acknowledgment succeeds).
`timestamp = 0` models the zero `time.Time`. -/
structure Delivery where
  routingKey : String
  messageId : String
  headers : List (String × HVal)
  body : BodyIn
  timestamp : Nat
  redelivered : Bool
  ackErr : Option GoErr

/-- Embedding of `MessageHandler = func(*Delivery) error`; the event list
records the broker-facing actions the handler performs. -/
def Handler : Type := Delivery → Option GoErr × List Event

/-- Embedding of `MiddlewareFunc = func(MessageHandler) MessageHandler`. -/
def Middleware : Type := Handler → Handler

/-- Sentinel `ErrConsumerClosed` from errors.go. -/
def errConsumerClosed : GoErr := GoErr.sentinel "consumer is closed"

/-- Sentinel `ErrConsumerAlreadyRunning` from errors.go. -/
def errConsumerAlreadyRunning : GoErr := GoErr.sentinel "consumer is already running"

/-- Sentinel `ErrNoHandlerFound` from errors.go. -/
def errNoHandlerFound : GoErr := GoErr.sentinel "no message handler found"

/-- Embedding of `IsConsumerError` (errors.go): identity comparison against
the three consumer sentinels. -/
def isConsumerError (e : GoErr) : Bool :=
  e == errConsumerClosed || e == errConsumerAlreadyRunning || e == errNoHandlerFound

/-- Embedding of `Delivery.GetHeader`. -/
def Delivery.getHeader (d : Delivery) (key : String) : Option HVal :=
  d.headers.lookup key

/-- Embedding of `Delivery.GetStringHeader`: the value must exist and be a
Go string. -/
def Delivery.getStringHeader (d : Delivery) (key : String) : Option String :=
  match d.headers.lookup key with
  | some (HVal.str s) => some s
  | _ => none

/-- Embedding of the `Consumer` fields the per-message path reads
(consumer.go). The handler map is modelled as an association list with
first-match lookup, which agrees with Go map lookup given that
`Handle` prepends (overwrite = shadowing). -/
structure Consumer where
  queue : String
  autoAck : Bool
  handlers : List (String × Handler)
  middleware : List Middleware
  isRunning : Bool

/-- Embedding of `Consumer.Handle`: registers a handler under a routing
key (map assignment, modelled by shadowing cons). -/
def Consumer.handle (c : Consumer) (routingKey : String) (h : Handler) : Consumer :=
  { c with handlers := (routingKey, h) :: c.handlers }

/-- Embedding of `Consumer.HandleAll`: registers the wildcard handler. -/
def Consumer.handleAll (c : Consumer) (h : Handler) : Consumer :=
  c.handle "*" h

/-- Embedding of `Consumer.Use`: appends middleware to the chain. -/
def Consumer.use (c : Consumer) (m : Middleware) : Consumer :=
  { c with middleware := c.middleware ++ [m] }

/-- Embedding of `Consumer.findHandler`: exact routing-key match first,
then the wildcard entry. -/
def Consumer.findHandler (c : Consumer) (routingKey : String) : Option Handler :=
  match c.handlers.lookup routingKey with
  | some h => some h
  | none => c.handlers.lookup "*"

/-- Embedding of the middleware-wrapping loop in `Consumer.handleMessage`:
`for i := len(m)-1; i >= 0; i-- { final = m[i](final) }`, i.e. a left fold
over the reversed list. -/
def applyMiddleware (ms : List Middleware) (h : Handler) : Handler :=
  ms.reverse.foldl (fun acc m => m acc) h

/-- Embedding of the guard and state transition at the head of
`Consumer.Start`: an already-running consumer fails immediately with a
fresh `fmt.Errorf` value; otherwise `isRunning` is set and workers are
spawned (worker spawning and the blocking wait are not modelled). -/
def Consumer.start (c : Consumer) : Option GoErr × Consumer :=
  if c.isRunning then (some (GoErr.errorf "consumer is already running"), c)
  else (none, { c with isRunning := true })

/-- Embedding of `Consumer.handleMessage`: resolve a handler (ack and
return nil when none and not auto-ack), wrap it with the middleware chain,
invoke it, and on success ack unless auto-ack (returning the broker's ack
result). The returned event list records the Ack calls issued. -/
def Consumer.handleMessage (c : Consumer) (d : Delivery) : Option GoErr × List Event :=
  match c.findHandler d.routingKey with
  | none =>
    if c.autoAck then (none, [])
    else (none, [Event.ack false])
  | some h =>
    let r := applyMiddleware c.middleware h d
    match r.1 with
    | some e => (some e, r.2)
    | none =>
      if c.autoAck then (none, r.2)
      else (d.ackErr, r.2 ++ [Event.ack false])

/-- Embedding of the per-delivery step of `Consumer.processMessages`: run
`handleMessage` and, when it returns an error and the consumer is not
auto-ack, Nack the delivery with requeue. -/
def Consumer.processMessage (c : Consumer) (d : Delivery) : List Event :=
  let r := c.handleMessage d
  match r.1 with
  | some _ => if c.autoAck then r.2 else r.2 ++ [Event.nack false true]
  | none => r.2

/-- Embedding of the header inspection in `RetryMiddleware`: the
`x-retry-count` header counts only when the Go type assertion to `int`
succeeds, otherwise the count stays zero. -/
def getRetryCount (d : Delivery) : Int :=
  match d.getHeader "x-retry-count" with
  | some (HVal.int n) => n
  | _ => 0

/-- Embedding of `RetryMiddleware` (middleware.go). The code reads the
retry count, invokes the inner handler, and on failure below the budget
returns nil after a local sleep - it builds a header table locally but
never republishes (the `time.Sleep` and the dead header table are not
modelled; no publish event is emitted, mirroring the absence of any
publish call in the source). -/
def RetryMiddleware (maxRetries : Int) : Middleware := fun next => fun d =>
  let retryCount := getRetryCount d
  let r := next d
  match r.1 with
  | none => (none, r.2)
  | some e => if retryCount < maxRetries then (none, r.2) else (some e, r.2)

/-- Embedding of the `InMemoryMessageStore.processed` map: message id to
the time `MarkProcessed` stamped it. -/
def MessageStore : Type := List (String × Nat)

/-- Embedding of `InMemoryMessageStore.HasProcessed`: map membership (the
TTL is consulted only by the cleanup sweep, not here). -/
def hasProcessed (s : MessageStore) (messageID : String) : Bool :=
  (s.lookup messageID).isSome

/-- Embedding of `InMemoryMessageStore.MarkProcessed`: stores the current
time under the id (map assignment, modelled by shadowing cons). -/
def markProcessed (s : MessageStore) (messageID : String) (now : Nat) : MessageStore :=
  (messageID, now) :: s

/-- Embedding of one sweep of `InMemoryMessageStore.cleanup`: delete every
entry whose timestamp is more than `ttl` old. -/
def cleanupStore (ttl : Nat) (now : Nat) (s : MessageStore) : MessageStore :=
  s.filter (fun p => !(now - p.2 > ttl))

/-- Embedding of `generateMessageID` (middleware.go): message id if set,
else the correlation-id string header, else routing key + message
timestamp, else routing key + current time (Go's time formatting is
abstracted to `toString`). -/
def generateMessageID (d : Delivery) (now : Nat) : String :=
  if d.messageId ≠ "" then d.messageId
  else
    match d.getStringHeader "correlation-id" with
    | some c => c
    | none =>
      if d.timestamp ≠ 0 then d.routingKey ++ "_" ++ toString d.timestamp
      else d.routingKey ++ "_" ++ toString now

/-- Embedding of the handler produced by `DeduplicationMiddleware`, with
the captured mutable store threaded explicitly: skip (returning nil) when
the id is already marked, otherwise invoke the inner handler and mark the
id only when it returned nil. -/
def dedupStep (h : Handler) (s : MessageStore) (d : Delivery) (now : Nat) :
    (Option GoErr × List Event) × MessageStore :=
  let messageID := if d.messageId = "" then generateMessageID d now else d.messageId
  if hasProcessed s messageID then ((none, []), s)
  else
    let r := h d
    match r.1 with
    | none => ((none, r.2), markProcessed s messageID now)
    | some e => ((some e, r.2), s)

/-- Embedding of the `Connection` fields `Close` touches: the
`isConnected` flag, whether the `done` channel has been closed, the open
channel names, and whether the physical `amqp.Connection` is non-nil and
not yet closed. -/
structure ConnState where
  isConnected : Bool
  doneClosed : Bool
  channels : List String
  connOpen : Bool
deriving DecidableEq, Repr

/-- Result of a `Connection.Close` call: a normal return with its error
and the post state, or a Go runtime panic. -/
inductive CloseOutcome where
  | ok (err : Option GoErr) (s : ConnState)
  | panicked (msg : String)
deriving DecidableEq, Repr

/-- Embedding of `Connection.Close` (connection.go): return nil when not
connected; otherwise `close(c.done)` - which panics in Go when `done` is
already closed - then close all channels, and when the physical
connection is open return its `Close()` result (`physErr`) directly.
The `c.isConnected = false` assignment in the source is unreachable on
that branch (it sits after the `return`), which the embedding preserves. -/
def Connection.close (physErr : Option GoErr) (s : ConnState) : CloseOutcome :=
  if !s.isConnected then CloseOutcome.ok none s
  else if s.doneClosed then CloseOutcome.panicked "close of closed channel"
  else
    let s1 : ConnState := { s with doneClosed := true, channels := [] }
    if s1.connOpen then CloseOutcome.ok physErr { s1 with connOpen := false }
    else CloseOutcome.ok none { s1 with isConnected := false }

/-- The `Message.Body interface{}` values the publisher distinguishes:
raw bytes, a Go string, or any other (JSON-marshalable) value. -/
inductive Body where
  | bytes (b : List Nat)
  | str (s : String)
  | val (j : Json)

/-- Embedding of the `Message` struct (publisher.go). -/
structure Message where
  body : Body
  routingKey : String
  contentType : String
  headers : List (String × HVal)
  priority : Nat
  expiration : String
  messageId : String
  timestamp : Nat
  type : String
  persistent : Bool

/-- Embedding of the `amqp.Publishing` the publisher hands to
`ch.Publish`, together with the exchange and routing key of the send. -/
structure Publishing where
  exchange : String
  routingKey : String
  headers : List (String × HVal)
  contentType : String
  body : List Nat
  deliveryMode : Nat
  priority : Nat
  expiration : String
  messageId : String
  timestamp : Nat
  type : String

/-- UTF-8 bytes of a string, as `[]byte(s)` produces in Go. -/
def utf8Bytes (s : String) : List Nat :=
  s.toUTF8.toList.map (fun b => b.toNat)

def jsonEscapeChar (c : Char) : String :=
  if c = '"' then "\\\"" else if c = '\\' then "\\\\" else String.singleton c

def jsonEscape (s : String) : String :=
  String.join (s.toList.map jsonEscapeChar)

def jsonLBrace : String := "\x7b"

def jsonRBrace : String := "\x7d"

mutual

/-- JSON text encoding, modelling `json.Marshal` on the values of `Json`
(Go's HTML escaping of angle brackets is not modelled). -/
def jsonMarshal : Json → String
  | Json.null => "null"
  | Json.bool true => "true"
  | Json.bool false => "false"
  | Json.num n => toString n
  | Json.str s => "\"" ++ jsonEscape s ++ "\""
  | Json.arr elems => "[" ++ jsonMarshalArr elems ++ "]"
  | Json.obj fields => jsonLBrace ++ jsonMarshalObj fields ++ jsonRBrace

def jsonMarshalArr : List Json → String
  | [] => ""
  | [j] => jsonMarshal j
  | j :: rest => jsonMarshal j ++ "," ++ jsonMarshalArr rest

def jsonMarshalObj : List (String × Json) → String
  | [] => ""
  | [(k, v)] => "\"" ++ jsonEscape k ++ "\":" ++ jsonMarshal v
  | (k, v) :: rest =>
    "\"" ++ jsonEscape k ++ "\":" ++ jsonMarshal v ++ "," ++ jsonMarshalObj rest

end

/-- The body-serialization switch in `Publisher.Publish`: bytes pass
through, strings become UTF-8 bytes, anything else is JSON-encoded. -/
def serializeBody : Body → List Nat
  | Body.bytes b => b
  | Body.str s => utf8Bytes s
  | Body.val j => utf8Bytes (jsonMarshal j)

/-- Embedding of the pure core of `Publisher.Publish` (publisher.go):
serialize the body (stamping `application/json` in the default branch
when no content type was supplied), default the content type to
`text/plain` when still empty, default the timestamp to now, and build
the `amqp.Publishing` with delivery mode 2 iff `Persistent`. -/
def publishBuild (exchange : String) (m : Message) (now : Nat) : Publishing :=
  let ct1 :=
    match m.body with
    | Body.val _ => if m.contentType = "" then "application/json" else m.contentType
    | _ => m.contentType
  let ct2 := if ct1 = "" then "text/plain" else ct1
  let ts := if m.timestamp = 0 then now else m.timestamp
  { exchange := exchange
    routingKey := m.routingKey
    headers := m.headers
    contentType := ct2
    body := serializeBody m.body
    deliveryMode := if m.persistent then 2 else 1
    priority := m.priority
    expiration := m.expiration
    messageId := m.messageId
    timestamp := ts
    type := m.type }

/-- Embedding of `Publisher.PublishJSON`: wraps the data in a `Message`
with content type `application/json` and `Persistent: true` (all other
fields zero) and publishes it. -/
def Publisher.publishJSON (exchange : String) (routingKey : String) (data : Body)
    (now : Nat) : Publishing :=
  publishBuild exchange
    { body := data
      routingKey := routingKey
      contentType := "application/json"
      headers := []
      priority := 0
      expiration := ""
      messageId := ""
      timestamp := 0
      type := ""
      persistent := true } now

/-- Embedding of `Manager.Publish`: resolves the publisher for the
exchange and forwards to `PublishJSON`. -/
def Manager.publish (exchange : String) (routingKey : String) (data : Body)
    (now : Nat) : Publishing :=
  Publisher.publishJSON exchange routingKey data now

/-- Embedding of `Manager.PublishToQueue`: publishes via the default
exchange publisher's `PublishJSON` with the queue name as routing key. -/
def Manager.publishToQueue (queueName : String) (data : Body) (now : Nat) : Publishing :=
  Publisher.publishJSON "" queueName data now

/-- The JSON value `json.Marshal` produces for the `Job` struct
(field order type, payload). -/
def jobToJson (jobType : String) (payload : Json) : Json :=
  Json.obj [("type", Json.str jobType), ("payload", payload)]

/-- Embedding of `Manager.PublishJob`: wraps the payload in a `Job`
envelope and forwards to `PublishToQueue`. -/
def Manager.publishJob (queueName : String) (jobType : String) (payload : Json)
    (now : Nat) : Publishing :=
  Manager.publishToQueue queueName (Body.val (jobToJson jobType payload)) now

/-- Embedding of `Queue.Push` (queue.go): builds a default-exchange
publisher and calls `PublishJSON` with the queue name as routing key. -/
def Queue.push (name : String) (data : Body) (now : Nat) : Publishing :=
  Publisher.publishJSON "" name data now

/-- Embedding of the `Job` envelope struct (manager.go). -/
structure Job where
  type : String
  payload : Json

/-- Embedding of `delivery.JSON(&job)` = `json.Unmarshal(body, &job)` for
the `Job` struct: invalid JSON errors; a JSON object fills `type` (which
must be a string or null) and `payload`; JSON null leaves the zero Job;
any other JSON document errors. Duplicate object keys are modelled
first-match. -/
def unmarshalJob : BodyIn → Except GoErr Job
  | BodyIn.invalid => Except.error (GoErr.errorf "invalid character in json body")
  | BodyIn.json Json.null => Except.ok { type := "", payload := Json.null }
  | BodyIn.json (Json.obj fields) =>
    let payload := (fields.lookup "payload").getD Json.null
    match fields.lookup "type" with
    | none => Except.ok { type := "", payload := payload }
    | some (Json.str t) => Except.ok { type := t, payload := payload }
    | some Json.null => Except.ok { type := "", payload := payload }
    | some _ => Except.error (GoErr.errorf "json: cannot unmarshal into Job.Type")
  | BodyIn.json _ => Except.error (GoErr.errorf "json: cannot unmarshal into Job")

/-- Embedding of the wildcard handler `Manager.ConsumeJobs` installs:
unmarshal the Job envelope (propagating the error), return nil for an
unknown job type without dispatching, else dispatch to the per-type
handler. -/
def consumeJobsHandler (handlers : List (String × Handler)) : Handler := fun d =>
  match unmarshalJob d.body with
  | Except.error e => (some e, [])
  | Except.ok job =>
    match handlers.lookup job.type with
    | none => (none, [])
    | some h => h d

/-- Embedding of the consumer `Manager.ConsumeJobs` assembles: the
default config (`AutoAck: false`), no middleware, and only the wildcard
job-router handler registered via `HandleAll`. -/
def Manager.consumeJobsConsumer (queueName : String)
    (handlers : List (String × Handler)) : Consumer :=
  { queue := queueName
    autoAck := false
    handlers := [("*", consumeJobsHandler handlers)]
    middleware := []
    isRunning := false }

/-- Outcome of `ch.Get(queue, autoAck)` as `Queue.Pop` observes it: a
broker error, an empty queue (`ok == false`), or one message. -/
inductive GetResult where
  | err (e : GoErr)
  | empty
  | msg (d : Delivery)

/-- Embedding of `Queue.Pop` (queue.go): channel acquisition failure or
broker error return `(nil, err)`; an empty queue returns `(nil, nil)`;
a message returns the wrapped delivery with a nil error. Result order
matches the Go signature `(*Delivery, error)`. -/
def Queue.pop (channel : Except GoErr Unit) (getResult : GetResult) :
    Option Delivery × Option GoErr :=
  match channel with
  | Except.error e => (none, some e)
  | Except.ok _ =>
    match getResult with
    | GetResult.err e => (none, some e)
    | GetResult.empty => (none, none)
    | GetResult.msg d => (some d, none)

/-- Embedding of `RabbitMQ.Pop` (rabbitmq.go): resolve the queue facade
through the manager (failing with its error) and delegate to
`Queue.Pop(false)`. -/
def RabbitMQ.pop (queueRes : Except GoErr Unit) (channel : Except GoErr Unit)
    (getResult : GetResult) : Option Delivery × Option GoErr :=
  match queueRes with
  | Except.error e => (none, some e)
  | Except.ok _ => Queue.pop channel getResult

/-! Concrete fixtures used by witnesses and counterexamples. -/

/-- A leaf handler that succeeds, leaving an invocation marker. -/
def hOk : Handler := fun _ => (none, [Event.invoke "handler"])

/-- A leaf handler that fails. -/
def hFail : Handler := fun _ => (some (GoErr.errorf "boom"), [Event.invoke "handler"])

/-- A concrete delivery with message id `m-1` routed to key `orders`. -/
def dTest : Delivery :=
  { routingKey := "orders"
    messageId := "m-1"
    headers := []
    body := BodyIn.json Json.null
    timestamp := 0
    redelivered := false
    ackErr := none }

/-- A concrete delivery that fails once according to its retry header. -/
def dRetry : Delivery :=
  { routingKey := "orders"
    messageId := "m-2"
    headers := [("x-retry-count", HVal.int 1)]
    body := BodyIn.json Json.null
    timestamp := 0
    redelivered := false
    ackErr := none }

/-- A concrete delivery carrying a Job envelope with an unregistered
type. -/
def dUnknownJob : Delivery :=
  { routingKey := "jobs"
    messageId := ""
    headers := []
    body := BodyIn.json (Json.obj [("type", Json.str "unknown"), ("payload", Json.null)])
    timestamp := 0
    redelivered := false
    ackErr := none }

/-- A consumer with one exact-key handler, autoAck off, no middleware. -/
def cTest : Consumer :=
  { queue := "orders"
    autoAck := false
    handlers := [("orders", hOk)]
    middleware := []
    isRunning := false }

/-- A consumer that is already running. -/
def cRunning : Consumer :=
  { queue := "orders"
    autoAck := false
    handlers := []
    middleware := []
    isRunning := true }

/-- One registered per-type job handler (for the unknown-type witness). -/
def jobHandlers : List (String × Handler) := [("send_email", hFail)]

/-- A connected Connection about to be closed for the first time. -/
def connLive : ConnState :=
  { isConnected := true, doneClosed := false, channels := ["pub"], connOpen := true }

/-- The state `Connection.Close` leaves behind after a successful first
close of a live connection: note `isConnected` is still true. -/
def connAfterClose : ConnState :=
  { isConnected := true, doneClosed := true, channels := [], connOpen := false }

/-- A concrete message with a structured body and no content type. -/
def mTest : Message :=
  { body := Body.val (Json.obj [("a", Json.num 1)])
    routingKey := "rk"
    contentType := ""
    headers := []
    priority := 0
    expiration := ""
    messageId := ""
    timestamp := 0
    type := ""
    persistent := false }

/-! Helper lemmas shared across claims. -/

theorem applyMiddleware_nil (h : Handler) : applyMiddleware [] h = h := rfl

theorem applyMiddleware_cons (m : Middleware) (ms : List Middleware) (h : Handler) :
    applyMiddleware (m :: ms) h = m (applyMiddleware ms h) := by
  simp [applyMiddleware, List.foldl_append]

theorem publishJSON_persistent_json (exchange routingKey : String) (data : Body) (now : Nat) :
    (Publisher.publishJSON exchange routingKey data now).deliveryMode = 2 ∧
    (Publisher.publishJSON exchange routingKey data now).contentType = "application/json" := by
  cases data <;> exact ⟨rfl, rfl⟩

/-! Claim theorems. -/

/-- C1: for a Consumer with autoAck=false and a resolved handler, a nil
result from the middleware-wrapped handler leads to Ack(multiple=false)
and no Nack; a non-nil result leads to Nack(multiple=false, requeue=true);
with autoAck=true the consumer issues neither acknowledgment (the
processed events are exactly the wrapped handler's own). -/
theorem consumer_ack_on_success_nack_on_failure
    (c : Consumer) (d : Delivery) (h : Handler)
    (hfind : c.findHandler d.routingKey = some h) :
    (c.autoAck = false → d.ackErr = none → (applyMiddleware c.middleware h d).1 = none →
      c.processMessage d = (applyMiddleware c.middleware h d).2 ++ [Event.ack false]) ∧
    (∀ e, c.autoAck = false → (applyMiddleware c.middleware h d).1 = some e →
      c.processMessage d = (applyMiddleware c.middleware h d).2 ++ [Event.nack false true]) ∧
    (c.autoAck = true → c.processMessage d = (applyMiddleware c.middleware h d).2) := by
  refine ⟨?_, ?_, ?_⟩
  · intro hA hAck hres
    simp [Consumer.processMessage, Consumer.handleMessage, hfind, hA, hAck, hres]
  · intro e hA hres
    simp [Consumer.processMessage, Consumer.handleMessage, hfind, hA, hres]
  · intro hA
    cases hres : (applyMiddleware c.middleware h d).1 <;>
      simp [Consumer.processMessage, Consumer.handleMessage, hfind, hA, hres]

/-- Witness for C1: the concrete consumer acks its successfully handled
delivery with multiple=false. -/
theorem consumer_ack_on_success_nack_on_failure_witness :
    cTest.processMessage dTest = [Event.invoke "handler", Event.ack false] :=
  (consumer_ack_on_success_nack_on_failure cTest dTest hOk rfl).1 rfl rfl rfl

/-- C2: Use appends middleware in registration order and the wrapping
loop in handleMessage composes the chain so the first-registered
middleware is outermost: applyMiddleware (m :: ms) h = m (applyMiddleware
ms h), i.e. the chain is the right fold m1 (m2 (... mk h ...)). -/
theorem middleware_first_registered_outermost :
    (∀ (c : Consumer) (m : Middleware), (c.use m).middleware = c.middleware ++ [m]) ∧
    (∀ (m : Middleware) (ms : List Middleware) (h : Handler),
      applyMiddleware (m :: ms) h = m (applyMiddleware ms h)) ∧
    (∀ (ms : List Middleware) (h : Handler),
      applyMiddleware ms h = ms.foldr (fun m acc => m acc) h) := by
  refine ⟨fun c m => rfl, applyMiddleware_cons, fun ms h => ?_⟩
  induction ms with
  | nil => rfl
  | cons m tail ih => rw [applyMiddleware_cons, ih]; rfl

/-- C3 (code bug): Connection.Close is not idempotent. A successful first
Close of a live connection returns through the conn.Close() branch
leaving isConnected still true (the clearing assignment sits after the
return and is dead code), so a second Close passes the isConnected guard,
reaches close(c.done) again and panics on the already-closed done channel
instead of returning nil without effect. -/
theorem connection_close_second_call_panics :
    Connection.close none connLive = CloseOutcome.ok none connAfterClose ∧
    connAfterClose.isConnected = true ∧
    Connection.close none connAfterClose =
      CloseOutcome.panicked "close of closed channel" :=
  ⟨rfl, rfl, rfl⟩

/-- C4: under deduplication, two deliveries sharing one message id with
the second within ttl of the first successful processing invoke the
wrapped handler exactly once - the first step invokes it and marks the
id, the id survives a cleanup sweep inside the window, and the second
step returns nil with no events and no store change, regardless of the
handler; moreover a failing first attempt leaves the store unmarked. -/
theorem dedup_invokes_handler_once
    (h : Handler) (s : MessageStore) (d1 d2 : Delivery) (msgId : String)
    (t1 t2 ttl : Nat)
    (hid : msgId ≠ "") (h1 : d1.messageId = msgId) (h2 : d2.messageId = msgId)
    (hfresh : hasProcessed s msgId = false)
    (hok : (h d1).1 = none)
    (hwin : t2 - t1 ≤ ttl) :
    dedupStep h s d1 t1 = ((none, (h d1).2), markProcessed s msgId t1) ∧
    hasProcessed (cleanupStore ttl t2 (markProcessed s msgId t1)) msgId = true ∧
    dedupStep h (cleanupStore ttl t2 (markProcessed s msgId t1)) d2 t2 =
      ((none, []), cleanupStore ttl t2 (markProcessed s msgId t1)) ∧
    (∀ (hFailing : Handler) (e : GoErr), (hFailing d1).1 = some e →
      (dedupStep hFailing s d1 t1).2 = s) := by
  have hkeep : ¬ (ttl < t2 - t1) := Nat.not_lt.mpr hwin
  have hmark : hasProcessed (cleanupStore ttl t2 (markProcessed s msgId t1)) msgId = true := by
    simp [cleanupStore, markProcessed, hasProcessed, List.filter, hkeep]
  refine ⟨?_, hmark, ?_, ?_⟩
  · simp [dedupStep, h1, hid, hfresh, hok]
  · simp [dedupStep, h2, hid, hmark]
  · intro hFailing e hfail
    simp [dedupStep, h1, hid, hfresh, hfail]

/-- Witness for C4: the second concrete delivery is skipped without
invoking the handler. -/
theorem dedup_invokes_handler_once_witness :
    dedupStep hOk (cleanupStore 10 1 (markProcessed ([] : MessageStore) "m-1" 0)) dTest 1 =
      ((none, []), cleanupStore 10 1 (markProcessed ([] : MessageStore) "m-1" 0)) :=
  (dedup_invokes_handler_once hOk [] dTest dTest "m-1" 0 1 10
    (by decide) rfl rfl rfl rfl (by decide)).2.2.1

/-- C5: the retry middleware swallows an inner failure (returning nil)
when the x-retry-count header is below max, returns the inner error
unchanged at or above max, and never republishes: its event output is
exactly the inner handler's, with no publish added. -/
theorem retry_swallows_failure_below_max
    (maxRetries : Int) (next : Handler) (d : Delivery) (e : GoErr)
    (hfail : (next d).1 = some e) :
    (getRetryCount d < maxRetries →
      RetryMiddleware maxRetries next d = (none, (next d).2)) ∧
    (¬ getRetryCount d < maxRetries →
      RetryMiddleware maxRetries next d = (some e, (next d).2)) ∧
    (RetryMiddleware maxRetries next d).2 = (next d).2 := by
  refine ⟨?_, ?_, ?_⟩
  · intro hlt; simp [RetryMiddleware, hfail, hlt]
  · intro hge; simp [RetryMiddleware, hfail, hge]
  · cases hr : (next d).1
    · simp [RetryMiddleware, hr]
    · simp only [RetryMiddleware, hr]
      split <;> rfl

/-- Witness for C5: a failure with retry count 1 under max 3 is
swallowed, with the inner events passed through unchanged. -/
theorem retry_swallows_failure_below_max_witness :
    RetryMiddleware 3 hFail dRetry = (none, [Event.invoke "handler"]) :=
  (retry_swallows_failure_below_max 3 hFail dRetry (GoErr.errorf "boom") rfl).1 (by decide)

/-- C6 counterexample: Start on a running consumer returns a fresh
fmt.Errorf value, not the ErrConsumerAlreadyRunning sentinel from
errors.go, so the claimed identity fails - in particular IsConsumerError
does not recognize the returned error. -/
theorem consumer_start_error_not_sentinel :
    (cRunning.start).1 = some (GoErr.errorf "consumer is already running") ∧
    ¬ ((cRunning.start).1 = some errConsumerAlreadyRunning) ∧
    isConsumerError (GoErr.errorf "consumer is already running") = false :=
  ⟨rfl, by decide, by decide⟩

/-- C6 amended: Start on an already-running consumer fails with an error
carrying the message "consumer is already running" - the sentinel's text
but a distinct fmt.Errorf value - and leaves the consumer unchanged, so
only one Start per instance is permitted. -/
theorem consumer_start_already_running
    (c : Consumer) (hrun : c.isRunning = true) :
    c.start = (some (GoErr.errorf "consumer is already running"), c) := by
  simp [Consumer.start, hrun]

/-- Witness for the amended C6 at the concrete running consumer. -/
theorem consumer_start_already_running_witness :
    cRunning.start = (some (GoErr.errorf "consumer is already running"), cRunning) :=
  consumer_start_already_running cRunning rfl

/-- C7: a ConsumeJobs consumer receiving a delivery whose Job envelope
decodes to a type with no registered handler invokes no per-type handler
(the wildcard router returns nil with no events, whatever the handler map
holds) and acknowledges the delivery: the only action is Ack(false). -/
theorem consume_jobs_unknown_type_acked
    (queueName : String) (handlers : List (String × Handler)) (d : Delivery) (job : Job)
    (hack : d.ackErr = none)
    (hjob : unmarshalJob d.body = Except.ok job)
    (hmiss : handlers.lookup job.type = none) :
    ((Manager.consumeJobsConsumer queueName handlers).handleMessage d).1 = none ∧
    (Manager.consumeJobsConsumer queueName handlers).processMessage d = [Event.ack false] := by
  have hrouter : consumeJobsHandler handlers d = (none, []) := by
    simp [consumeJobsHandler, hjob, hmiss]
  have hfind : (Manager.consumeJobsConsumer queueName handlers).findHandler d.routingKey =
      some (consumeJobsHandler handlers) := by
    by_cases hk : d.routingKey = "*"
    · simp [Manager.consumeJobsConsumer, Consumer.findHandler, List.lookup, hk]
    · have hbeq : (d.routingKey == "*") = false := beq_eq_false_iff_ne.mpr hk
      simp [Manager.consumeJobsConsumer, Consumer.findHandler, List.lookup, hbeq]
  have hauto : (Manager.consumeJobsConsumer queueName handlers).autoAck = false := rfl
  have hmw : (Manager.consumeJobsConsumer queueName handlers).middleware = [] := rfl
  have hmsg : (Manager.consumeJobsConsumer queueName handlers).handleMessage d =
      (none, [Event.ack false]) := by
    simp [Consumer.handleMessage, hfind, hmw, applyMiddleware_nil, hrouter, hack, hauto]
  refine ⟨?_, ?_⟩
  · rw [hmsg]
  · simp [Consumer.processMessage, hmsg]

/-- Witness for C7: the concrete unknown-type job delivery is acked
without invoking the registered handler. -/
theorem consume_jobs_unknown_type_acked_witness :
    (Manager.consumeJobsConsumer "jobs" jobHandlers).processMessage dUnknownJob =
      [Event.ack false] :=
  (consume_jobs_unknown_type_acked "jobs" jobHandlers dUnknownJob
    { type := "unknown", payload := Json.null } rfl rfl rfl).2

/-- C8: Publisher.Publish reduces every body to bytes before the send:
raw bytes pass through unchanged, a string body becomes its UTF-8 bytes,
and any other body is JSON-encoded, with the content type stamped
application/json when none was supplied. -/
theorem publish_reduces_body_to_bytes
    (exchange : String) (m : Message) (now : Nat) :
    (∀ b, m.body = Body.bytes b → (publishBuild exchange m now).body = b) ∧
    (∀ s, m.body = Body.str s → (publishBuild exchange m now).body = utf8Bytes s) ∧
    (∀ j, m.body = Body.val j →
      (publishBuild exchange m now).body = utf8Bytes (jsonMarshal j) ∧
      (m.contentType = "" →
        (publishBuild exchange m now).contentType = "application/json")) := by
  refine ⟨?_, ?_, ?_⟩
  · intro b hb; simp [publishBuild, serializeBody, hb]
  · intro s hs; simp [publishBuild, serializeBody, hs]
  · intro j hj
    constructor
    · simp [publishBuild, serializeBody, hj]
    · intro hct; simp [publishBuild, hj, hct]

/-- Witness for C8: the concrete structured message is JSON-encoded and
stamped application/json. -/
theorem publish_reduces_body_to_bytes_witness :
    (publishBuild "ex" mTest 7).body =
      utf8Bytes (jsonMarshal (Json.obj [("a", Json.num 1)])) ∧
    (publishBuild "ex" mTest 7).contentType = "application/json" :=
  ⟨((publish_reduces_body_to_bytes "ex" mTest 7).2.2 (Json.obj [("a", Json.num 1)]) rfl).1,
   ((publish_reduces_body_to_bytes "ex" mTest 7).2.2 (Json.obj [("a", Json.num 1)]) rfl).2 rfl⟩

/-- C9: an empty queue yields a nil delivery together with a nil error
from Queue.Pop - absence, not an error - and RabbitMQ.Pop delegates to
Queue.Pop, reporting the same. -/
theorem pop_empty_queue_nil_nil :
    Queue.pop (Except.ok ()) GetResult.empty = (none, none) ∧
    RabbitMQ.pop (Except.ok ()) (Except.ok ()) GetResult.empty = (none, none) ∧
    (∀ (channel : Except GoErr Unit) (g : GetResult),
      RabbitMQ.pop (Except.ok ()) channel g = Queue.pop channel g) :=
  ⟨rfl, rfl, fun _ _ => rfl⟩

/-- C10: every convenience publishing path - Manager.Publish,
Manager.PublishToQueue, Manager.PublishJob and Queue.Push - goes through
PublishJSON and therefore always sends delivery mode 2 (persistent) with
content type application/json, for every body. -/
theorem convenience_paths_persistent_json
    (exchange queueName routingKey name jobType : String)
    (data : Body) (payload : Json) (now : Nat) :
    ((Manager.publish exchange routingKey data now).deliveryMode = 2 ∧
      (Manager.publish exchange routingKey data now).contentType = "application/json") ∧
    ((Manager.publishToQueue queueName data now).deliveryMode = 2 ∧
      (Manager.publishToQueue queueName data now).contentType = "application/json") ∧
    ((Manager.publishJob queueName jobType payload now).deliveryMode = 2 ∧
      (Manager.publishJob queueName jobType payload now).contentType = "application/json") ∧
    ((Queue.push name data now).deliveryMode = 2 ∧
      (Queue.push name data now).contentType = "application/json") :=
  ⟨publishJSON_persistent_json exchange routingKey data now,
   publishJSON_persistent_json "" queueName data now,
   publishJSON_persistent_json "" queueName (Body.val (jobToJson jobType payload)) now,
   publishJSON_persistent_json "" name data now⟩

end Golara
